import Mathlib

/-!
Verification development for the AI-powered incident response system.

The Python source is embedded shallowly:
* dictionaries threaded through the LangGraph workflow become the
  `IncidentState` structure; a node's returned update dict becomes a
  `PartialUpdate` whose `Option` components record which keys the dict holds;
* the LangGraph channel semantics of the `IncidentState` TypedDict
  (`agents_completed` and `agent_errors` carry the `operator.add` reducer,
  every other key is a last-value channel) become `applyUpdate`, and merging
  the asynchronously arriving parallel results is a fold of `applyUpdate`
  over the arrival order, as in spec section 4.2;
* the external collaborators (Gemini responses, e-mail, wall-clock time,
  uuid) are oracle inputs gathered in `Oracles`; the pure parsing that the
  repository performs on those responses is embedded from the source;
* Python floats are modelled as rationals: every constant the code
  manipulates (0.5/0.2 similarity increments, 0.3 threshold, confidence
  values parsed from short decimal literals) is exactly representable, and
  the similarity score is additionally kept in integer tenths so that all
  comparisons agree with the float computation.
-/

/-! ## Python string primitives used by the services layer -/

/-- Python `\s` whitespace class (`str.split()` / `str.strip()` / regex `\s`). -/
def pyWhitespace (c : Char) : Bool :=
  c = ' ' || c = '\t' || c = '\n' || c = '\r' || c = '\x0b' || c = '\x0c'

/-- Python `str.lower()` on the ASCII range. -/
def pyLower (l : List Char) : List Char := l.map Char.toLower

/-- Python `str.strip()`. -/
def pyStrip (l : List Char) : List Char :=
  ((l.dropWhile pyWhitespace).reverse.dropWhile pyWhitespace).reverse

/-- Helper for `pySplit`: accumulates the current word (reversed). -/
def pySplitAux : List Char → List Char → List (List Char)
  | [], acc => if acc.isEmpty then [] else [acc.reverse]
  | c :: rest, acc =>
    if pyWhitespace c then
      if acc.isEmpty then pySplitAux rest [] else acc.reverse :: pySplitAux rest []
    else pySplitAux rest (c :: acc)

/-- Python `str.split()` with no argument: split on whitespace runs, no empties. -/
def pySplit (l : List Char) : List (List Char) := pySplitAux l []

/-- Python substring containment `needle in hay`. -/
def containsSub (needle : List Char) : List Char → Bool
  | [] => needle.isEmpty
  | c :: rest => needle.isPrefixOf (c :: rest) || containsSub needle rest

/-- The remainder of the text after the first occurrence of `pat`
(`re.search` locating a literal prefix). -/
def dropAfterFirst (pat : List Char) : List Char → Option (List Char)
  | [] => if pat.isEmpty then some [] else none
  | c :: rest =>
    if pat.isPrefixOf (c :: rest) then some ((c :: rest).drop pat.length)
    else dropAfterFirst pat rest

/-- Characters matched by the regex class `[\d.]`. -/
def confChar (c : Char) : Bool := c.isDigit || c = '.'

/-- `re.search(PAT + r":\s*([\d.]+)", s)`: scan for the first occurrence of the
literal pattern that is followed, after whitespace, by a nonempty `[\d.]+` run,
and return that run. -/
def findNumToken (pat : List Char) : List Char → Option (List Char)
  | [] => none
  | c :: rest =>
    if pat.isPrefixOf (c :: rest) then
      let after := (c :: rest).drop pat.length
      let tok := (after.dropWhile pyWhitespace).takeWhile confChar
      if tok.isEmpty then findNumToken pat rest else some tok
    else findNumToken pat rest

/-- Digit run to a natural number. -/
def digitsToNat (l : List Char) : Nat :=
  l.foldl (fun n c => 10 * n + (c.toNat - 48)) 0

/-- Python `float(tok)` for a token drawn from `[\d.]+`: fails (raises
`ValueError`) when the token has more than one dot or no digit at all;
otherwise the exact decimal value. -/
def pythonFloatOfToken (tok : List Char) : Option ℚ :=
  if 1 < tok.count '.' then none
  else if tok.all (fun c => c = '.') then none
  else
    let ip := tok.takeWhile (fun c => c ≠ '.')
    let fp := (tok.dropWhile (fun c => c ≠ '.')).drop 1
    some (mkRat (digitsToNat ip * 10 ^ fp.length + digitsToNat fp) (10 ^ fp.length))

/-- `re.search(PAT + r":\s*(.*?)(?:\n|$)", s)` followed by `.strip()`:
the stripped text between the first occurrence of the pattern and the next
newline. -/
def scanLineVal (pat : List Char) (s : List Char) : Option (List Char) :=
  (dropAfterFirst pat s).map
    (fun rest => pyStrip ((rest.dropWhile pyWhitespace).takeWhile (fun c => c ≠ '\n')))

/-- `re.search(PAT + r":\s*(.*?)$", s, re.DOTALL)` followed by `.strip()`:
the stripped remainder after the first occurrence of the pattern. -/
def scanRestVal (pat : List Char) (s : List Char) : Option (List Char) :=
  (dropAfterFirst pat s).map (fun rest => pyStrip (rest.dropWhile pyWhitespace))

/-- Round to the nearest integer, ties to even (CPython float formatting). -/
def roundHalfEven (q : ℚ) : ℤ :=
  let f := Int.floor q
  let frac := q - f
  if frac < mkRat 1 2 then f
  else if mkRat 1 2 < frac then f + 1
  else if f % 2 = 0 then f else f + 1

/-- Python `f"{q:.2f}"` on the exact decimal model of the float. -/
def pyFormat2f (q : ℚ) : String :=
  let sign := if q < 0 then "-" else ""
  let n := (roundHalfEven (|q| * 100)).toNat
  sign ++ toString (n / 100) ++ "." ++
    (if n % 100 < 10 then "0" else "") ++ toString (n % 100)

/-- Python `", ".join(l)`. -/
def joinComma : List String → String
  | [] => ""
  | [a] => a
  | a :: rest => a ++ ", " ++ joinComma rest

/-! ## services/knowledge/client.py -/

/-- One record of the flat-file historical-incident store
(`load_past_resolutions`); a field the file omits is the empty
string / empty list, matching the `dict.get` defaults at the use sites. -/
structure PastIncident where
  service : String
  anomaly : String
  root_cause : String
  solution : String
  keywords : List String
deriving DecidableEq

/-- The similarity score of `find_similar_incidents`, in integer tenths:
the source adds `0.5` for a service substring match and `0.2` per
(anomaly word, keyword) substring hit, so one tenth is the exact unit. -/
def similarityScore (anomalies : List String) (service : String)
    (inc : PastIncident) : Nat :=
  let serviceScore :=
    if containsSub (pyLower service.toList) (pyLower inc.service.toList) then 5 else 0
  let kwHits :=
    (anomalies.map (fun a =>
      ((pySplit (pyLower a.toList)).map (fun w =>
        inc.keywords.countP (fun k => containsSub w (pyLower k.toList)))).sum)).sum
  serviceScore + 2 * kwHits

/-- `find_similar_incidents(anomalies, service, past_incidents)`: score every
past incident, keep those with score above `0.3` (three tenths), sort by
score descending (Python's stable `sort(reverse=True)`), return the top 3. -/
def find_similar_incidents (anomalies : List String) (service : String)
    (past : List PastIncident) : List PastIncident :=
  ((List.insertionSort (fun a b : PastIncident × Nat => b.2 ≤ a.2)
      ((past.map (fun inc => (inc, similarityScore anomalies service inc))).filter
        (fun p => 3 < p.2))).take 3).map
    (fun p => p.1)

/-! ## services/gemini/client.py

`generate_response` is an outbound model call: its return value is an oracle
string.  The parsing the client performs on that string is embedded here. -/

/-- `parse_incident_alert`: the `re.search(r"\{.*\}")` + `json.loads` step is
an oracle (`none` = no JSON extracted / decode error, both of which take the
fallback path); a decoded object may lack any of the three keys. -/
structure ParsedJson where
  service : Option String
  severity : Option String
  description : Option String
deriving DecidableEq

inductive ParseOutcome
  | json (j : ParsedJson)
  | fallback
deriving DecidableEq

/-- `parse_incident_alert(raw_alert)`: either the decoded JSON object or the
hard-coded fallback `{"service": "Unknown Service", "severity": "MEDIUM",
"description": raw_alert[:100]}`. -/
def parse_incident_alert (raw_alert : String) : ParseOutcome → ParsedJson
  | .json j => j
  | .fallback =>
    { service := some "Unknown Service"
      severity := some "MEDIUM"
      description := some (raw_alert.take 100) }

/-- `generate_root_cause(incident_info, similar_incidents)` applied to the
oracle model response: defaults `("Unknown cause", 0.7, "Investigate and
fix")`, overridden by the `ROOT_CAUSE:` / `CONFIDENCE:` / `SOLUTION:` matches;
`float()` on a malformed `[\d.]+` token raises (`Except.error`). -/
def generate_root_cause (response : String) : Except String (String × ℚ × String) :=
  let r := response.toList
  let root_cause :=
    ((scanLineVal ("ROOT_CAUSE:".toList) r).map String.mk).getD "Unknown cause"
  let solution :=
    ((scanRestVal ("SOLUTION:".toList) r).map String.mk).getD "Investigate and fix"
  match findNumToken ("CONFIDENCE:".toList) r with
  | none => .ok (root_cause, mkRat 7 10, solution)
  | some tok =>
    match pythonFloatOfToken tok with
    | none => .error "could not convert string to float"
    | some q => .ok (root_cause, q, solution)

/-- `simulate_mitigation(solution)` applied to the oracle model response:
success iff `"true"` occurs in the lowercased response, details from the
`DETAILS:` match with default `"Mitigation executed"`. -/
def simulate_mitigation (response : String) : Bool × String :=
  let success := containsSub ("true".toList) (pyLower response.toList)
  let details :=
    ((scanRestVal ("DETAILS:".toList) (response.toList)).map String.mk).getD
      "Mitigation executed"
  (success, details)

/-! ## The incident context (workflows/parallel_workflow.py `IncidentState`) -/

/-- One entry of the `agent_errors` log, as built by
`BaseIncidentAgent.execute` and `_wrap_agent`. -/
structure AgentError where
  agent : String
  error : String
  timestamp : String
deriving DecidableEq

/-- The `log_analysis_results` dict built by `LogAnalysisAgent.process`. -/
structure LogResults where
  service : String
  anomalies : List String
  retry_count : Nat
  analysis_timestamp : String
  anomalies_found : Bool
deriving DecidableEq

/-- The `knowledge_lookup_results` dict built by `KnowledgeLookupAgent.process`. -/
structure KnResults where
  service : String
  search_keywords : List String
  similar_incidents : List PastIncident
  similar_count : Nat
  search_timestamp : String
deriving DecidableEq

/-- The `root_cause_results` dict built by `RootCauseAgent.process`. -/
structure RcResults where
  service : String
  incident_info : String
  root_cause : String
  confidence : ℚ
  solution : String
  similar_incidents_used : Nat
  analysis_timestamp : String
deriving DecidableEq

/-- The `mitigation_results` dict built by `MitigationAgent.process`. -/
structure MitResults where
  solution : String
  success : Bool
  details : String
  execution_timestamp : String
deriving DecidableEq

/-- The `escalation_results` dict built by `EscalationAgent.process`. -/
structure EscResults where
  reason : String
  escalated_at : String
  requires_human_intervention : Bool
deriving DecidableEq

/-- The `decision_metrics` dict built by `decision_maker_node`. -/
structure DecisionMetrics where
  confidence : ℚ
  anomalies_found : Bool
  similar_incidents_count : Nat
  retry_count : Nat
  escalation_reason : String
deriving DecidableEq

/-- The shared context dict.  The schema keys of the `IncidentState` TypedDict
appear first; result-slot dicts are `Option` values with `none` for the empty
dict `{}`.  After them come the keys various nodes add dynamically
(`error`, `coordination_status`, `missing_agents`, `coordination_timestamp`,
`mitigation_failed`, `mitigation_results`, `escalation_results`,
`completion_timestamp`, `error_handled`, and the `<agent>_results` keys that
only the error path of `BaseIncidentAgent.execute` creates); for those,
`none` means the key is absent. -/
structure IncidentState where
  incident_id : String
  raw_alert : String
  timestamp : String
  stage : String
  service : String
  severity : String
  description : String
  log_analysis_results : Option LogResults
  knowledge_lookup_results : Option KnResults
  root_cause_results : Option RcResults
  agents_completed : List String
  agent_errors : List AgentError
  decision : String
  decision_metrics : Option DecisionMetrics
  escalation_reason : String
  next : String
  retry_count : Nat
  workflow_complete : Bool
  error : Option String
  coordination_status : Option String
  missing_agents : Option (List String)
  coordination_timestamp : Option String
  mitigation_failed : Option Bool
  mitigation_results : Option MitResults
  escalation_results : Option EscResults
  completion_timestamp : Option String
  error_handled : Option Bool
  incident_trigger_results : Option Unit
  agent_coordinator_results : Option Unit
  communicator_results : Option Unit
deriving DecidableEq

/-- A node's returned update dict.  An outer `none` means the key is not in
the dict; `some v` means the dict maps the key to `v` (for the result slots,
`some none` is the key explicitly set to the empty dict `{}`). -/
structure PartialUpdate where
  incident_id : Option String := none
  raw_alert : Option String := none
  timestamp : Option String := none
  stage : Option String := none
  service : Option String := none
  severity : Option String := none
  description : Option String := none
  log_analysis_results : Option (Option LogResults) := none
  knowledge_lookup_results : Option (Option KnResults) := none
  root_cause_results : Option (Option RcResults) := none
  agents_completed : Option (List String) := none
  agent_errors : Option (List AgentError) := none
  decision : Option String := none
  decision_metrics : Option (Option DecisionMetrics) := none
  escalation_reason : Option String := none
  next : Option String := none
  retry_count : Option Nat := none
  workflow_complete : Option Bool := none
  error : Option String := none
  coordination_status : Option String := none
  missing_agents : Option (List String) := none
  coordination_timestamp : Option String := none
  mitigation_failed : Option Bool := none
  mitigation_results : Option (Option MitResults) := none
  escalation_results : Option (Option EscResults) := none
  completion_timestamp : Option String := none
  error_handled : Option Bool := none
  incident_trigger_results : Option (Option Unit) := none
  agent_coordinator_results : Option (Option Unit) := none
  communicator_results : Option (Option Unit) := none
deriving DecidableEq

/-- The Python `{**state}` spread: an update dict holding every key of the
state with its current value. -/
def PartialUpdate.ofState (s : IncidentState) : PartialUpdate where
  incident_id := some s.incident_id
  raw_alert := some s.raw_alert
  timestamp := some s.timestamp
  stage := some s.stage
  service := some s.service
  severity := some s.severity
  description := some s.description
  log_analysis_results := some s.log_analysis_results
  knowledge_lookup_results := some s.knowledge_lookup_results
  root_cause_results := some s.root_cause_results
  agents_completed := some s.agents_completed
  agent_errors := some s.agent_errors
  decision := some s.decision
  decision_metrics := some s.decision_metrics
  escalation_reason := some s.escalation_reason
  next := some s.next
  retry_count := some s.retry_count
  workflow_complete := some s.workflow_complete
  error := s.error
  coordination_status := s.coordination_status
  missing_agents := s.missing_agents
  coordination_timestamp := s.coordination_timestamp
  mitigation_failed := s.mitigation_failed
  mitigation_results := s.mitigation_results.map some
  escalation_results := s.escalation_results.map some
  completion_timestamp := s.completion_timestamp
  error_handled := s.error_handled
  incident_trigger_results := s.incident_trigger_results.map some
  agent_coordinator_results := s.agent_coordinator_results.map some
  communicator_results := s.communicator_results.map some

/-- The merge policy: LangGraph applies one node's update dict to the state
channels.  `agents_completed` and `agent_errors` are `Annotated[..., add]`
channels, so an update is concatenated onto the current list; every other key
is a last-value channel, so a key present in the update overwrites. -/
def applyUpdate (s : IncidentState) (u : PartialUpdate) : IncidentState where
  incident_id := u.incident_id.getD s.incident_id
  raw_alert := u.raw_alert.getD s.raw_alert
  timestamp := u.timestamp.getD s.timestamp
  stage := u.stage.getD s.stage
  service := u.service.getD s.service
  severity := u.severity.getD s.severity
  description := u.description.getD s.description
  log_analysis_results := u.log_analysis_results.getD s.log_analysis_results
  knowledge_lookup_results := u.knowledge_lookup_results.getD s.knowledge_lookup_results
  root_cause_results := u.root_cause_results.getD s.root_cause_results
  agents_completed := s.agents_completed ++ u.agents_completed.getD []
  agent_errors := s.agent_errors ++ u.agent_errors.getD []
  decision := u.decision.getD s.decision
  decision_metrics := u.decision_metrics.getD s.decision_metrics
  escalation_reason := u.escalation_reason.getD s.escalation_reason
  next := u.next.getD s.next
  retry_count := u.retry_count.getD s.retry_count
  workflow_complete := u.workflow_complete.getD s.workflow_complete
  error := u.error.orElse (fun _ => s.error)
  coordination_status := u.coordination_status.orElse (fun _ => s.coordination_status)
  missing_agents := u.missing_agents.orElse (fun _ => s.missing_agents)
  coordination_timestamp := u.coordination_timestamp.orElse (fun _ => s.coordination_timestamp)
  mitigation_failed := u.mitigation_failed.orElse (fun _ => s.mitigation_failed)
  mitigation_results := u.mitigation_results.getD s.mitigation_results
  escalation_results := u.escalation_results.getD s.escalation_results
  completion_timestamp := u.completion_timestamp.orElse (fun _ => s.completion_timestamp)
  error_handled := u.error_handled.orElse (fun _ => s.error_handled)
  incident_trigger_results := u.incident_trigger_results.getD s.incident_trigger_results
  agent_coordinator_results := u.agent_coordinator_results.getD s.agent_coordinator_results
  communicator_results := u.communicator_results.getD s.communicator_results

/-- `create_incident_state(raw_alert)` (core/state.py); the uuid-based id and
the creation timestamp come from the environment. -/
def create_incident_state (incident_id raw_alert created_at : String) : IncidentState where
  incident_id := incident_id
  raw_alert := raw_alert
  timestamp := created_at
  stage := "detected"
  service := ""
  severity := ""
  description := ""
  log_analysis_results := none
  knowledge_lookup_results := none
  root_cause_results := none
  agents_completed := []
  agent_errors := []
  decision := ""
  decision_metrics := none
  escalation_reason := ""
  next := ""
  retry_count := 0
  workflow_complete := false
  error := none
  coordination_status := none
  missing_agents := none
  coordination_timestamp := none
  mitigation_failed := none
  mitigation_results := none
  escalation_results := none
  completion_timestamp := none
  error_handled := none
  incident_trigger_results := none
  agent_coordinator_results := none
  communicator_results := none

/-! ## agents/base_agent.py -/

/-- The concrete task units.  `_get_agent_id` maps each `agent_name` to
itself (no name contains the substring `"_agent"` preceded by text that the
`replace` would rewrite). -/
inductive AgentKind
  | incident_trigger
  | log_analysis
  | knowledge_lookup
  | root_cause
  | agent_coordinator
  | mitigation
  | escalation
  | communicator
deriving DecidableEq

/-- `BaseIncidentAgent._get_agent_id` / `agent_name` (identical strings for
every agent in this repository). -/
def AgentKind.agentId : AgentKind → String
  | .incident_trigger => "incident_trigger"
  | .log_analysis => "log_analysis"
  | .knowledge_lookup => "knowledge_lookup"
  | .root_cause => "root_cause"
  | .agent_coordinator => "agent_coordinator"
  | .mitigation => "mitigation"
  | .escalation => "escalation"
  | .communicator => "communicator"

/-- The `f"{self._get_result_key()}": {}` assignment of the error path of
`BaseIncidentAgent.execute`: set this agent's result slot to the empty dict. -/
def AgentKind.setSlotEmpty : AgentKind → PartialUpdate → PartialUpdate
  | .incident_trigger, u => { u with incident_trigger_results := some (some ()) }
  | .log_analysis, u => { u with log_analysis_results := some none }
  | .knowledge_lookup, u => { u with knowledge_lookup_results := some none }
  | .root_cause, u => { u with root_cause_results := some none }
  | .agent_coordinator, u => { u with agent_coordinator_results := some (some ()) }
  | .mitigation, u => { u with mitigation_results := some none }
  | .escalation, u => { u with escalation_results := some none }
  | .communicator, u => { u with communicator_results := some (some ()) }

/-- `BaseIncidentAgent.execute`: run the agent-specific `process`; on success
make sure the update's `agents_completed` entry carries this agent's id; on an
internal failure catch it and return the `{**state, result_key: {},
"agents_completed": [id], "agent_errors": [info]}` dict.  `now` is the
wall-clock oracle for the error-entry timestamp. -/
def base_agent_execute (k : AgentKind) (now : String)
    (process : IncidentState → Except String PartialUpdate)
    (s : IncidentState) : PartialUpdate :=
  match process s with
  | .ok u =>
    match u.agents_completed with
    | none => { u with agents_completed := some [k.agentId] }
    | some l =>
      if k.agentId ∈ l then u else { u with agents_completed := some (l ++ [k.agentId]) }
  | .error e =>
    k.setSlotEmpty
      { PartialUpdate.ofState s with
        agents_completed := some [k.agentId]
        agent_errors := some [{ agent := k.agentId, error := e, timestamp := now }] }

/-! ## The individual agents' `process` methods -/

/-- `IncidentTriggerAgent.process`: parse the alert (Gemini + JSON decode as
oracle `po`), write the three classification fields (a missing key in the
decoded object raises `KeyError` at the subscription), send the initial
notification (`send_email` swallows every failure), set the stage and the
next-step hint, and return the whole context. -/
def incident_trigger_process (po : ParseOutcome) (s : IncidentState) :
    Except String PartialUpdate :=
  let parsed := parse_incident_alert s.raw_alert po
  match parsed.service with
  | none => .error "KeyError: service"
  | some sv =>
    match parsed.severity with
    | none => .error "KeyError: severity"
    | some sev =>
      match parsed.description with
      | none => .error "KeyError: description"
      | some desc =>
        .ok (PartialUpdate.ofState
          { s with
            service := sv
            severity := sev
            description := desc
            stage := "analyzing"
            next := "parallel_agents" })

/-- `LogAnalysisAgent.process`: `analyze_logs` output is the oracle
`anomalies`; on an empty list the retry counter of the (spread) state is
incremented.  Returns the whole context plus `log_analysis_results`. -/
def log_analysis_process (anomalies : List String) (now : String)
    (s : IncidentState) : Except String PartialUpdate :=
  let results : LogResults :=
    { service := s.service
      anomalies := anomalies
      retry_count := s.retry_count
      analysis_timestamp := now
      anomalies_found := !anomalies.isEmpty }
  .ok { PartialUpdate.ofState s with
        retry_count := some (if anomalies.isEmpty then s.retry_count + 1 else s.retry_count)
        log_analysis_results := some (some results) }

/-- `KnowledgeLookupAgent.process`: search keywords are the log-analysis
anomalies or, when those are absent, the first three words of the lowercased
description; returns only the agent-specific `knowledge_lookup_results`. -/
def knowledge_lookup_process (past : List PastIncident) (now : String)
    (s : IncidentState) : Except String PartialUpdate :=
  let anomalies := ((s.log_analysis_results.map (fun r => r.anomalies)).getD [])
  let keywords :=
    if anomalies.isEmpty then ((pySplit (pyLower s.description.toList)).map String.mk).take 3
    else anomalies
  let similar := find_similar_incidents keywords s.service past
  let results : KnResults :=
    { service := s.service
      search_keywords := keywords
      similar_incidents := similar
      similar_count := similar.length
      search_timestamp := now }
  .ok { knowledge_lookup_results := some (some results) }

/-- `RootCauseAgent.process`: builds the incident text, runs
`generate_root_cause` on the oracle model response (whose parsing may raise),
and returns only the agent-specific `root_cause_results`. -/
def root_cause_process (response : String) (now : String)
    (s : IncidentState) : Except String PartialUpdate :=
  let anomalies := ((s.log_analysis_results.map (fun r => r.anomalies)).getD [s.description])
  let similar := ((s.knowledge_lookup_results.map (fun r => r.similar_incidents)).getD [])
  let incident_info :=
    "Service: " ++ s.service ++ ", Description: " ++ s.description ++
      ", Anomalies: " ++ joinComma anomalies
  match generate_root_cause response with
  | .error e => .error e
  | .ok (cause, confidence, solution) =>
    let results : RcResults :=
      { service := s.service
        incident_info := incident_info
        root_cause := cause
        confidence := confidence
        solution := solution
        similar_incidents_used := similar.length
        analysis_timestamp := now }
    .ok { root_cause_results := some (some results) }

/-- The fixed set of task units expected to run in parallel. -/
def expected_agents : List String := ["log_analysis", "knowledge_lookup", "root_cause"]

/-- `AgentCoordinator.process`: check the completion list against the expected
set and either record the missing agents or mark coordination complete and
point `next` at the decision maker; returns the whole (mutated) context. -/
def agent_coordinator_process (now : String) (s : IncidentState) :
    Except String PartialUpdate :=
  let missing := expected_agents.filter (fun a => decide (a ∉ s.agents_completed))
  let s1 :=
    if missing.isEmpty then
      { s with coordination_status := some "complete", next := "decision_maker" }
    else
      { s with coordination_status := some "waiting", missing_agents := some missing }
  .ok (PartialUpdate.ofState { s1 with coordination_timestamp := some now })

/-- `MitigationAgent.process`: fetch the suggested solution, move the stage to
`mitigating`, run `simulate_mitigation` on the oracle response, and on failure
record `mitigation_failed` and the escalation reason (the stage is left at
`mitigating`); returns the whole context. -/
def mitigation_process (response : String) (now : String) (s : IncidentState) :
    Except String PartialUpdate :=
  let solution := ((s.root_cause_results.map (fun r => r.solution)).getD
    "Generic restart and investigation")
  let s1 := { s with stage := "mitigating" }
  let outcome := simulate_mitigation response
  let s2 :=
    if outcome.1 then { s1 with stage := "resolved" }
    else
      { s1 with
        mitigation_failed := some true
        escalation_reason := "Mitigation failed: " ++ outcome.2 }
  .ok (PartialUpdate.ofState
    { s2 with
      mitigation_results := some
        { solution := solution
          success := outcome.1
          details := outcome.2
          execution_timestamp := now } })

/-- `EscalationAgent.process`: move the stage to `escalated`, send the alert
(best-effort), record the escalation result; returns the whole context. -/
def escalation_process (now : String) (s : IncidentState) :
    Except String PartialUpdate :=
  .ok (PartialUpdate.ofState
    { s with
      stage := "escalated"
      escalation_results := some
        { reason := s.escalation_reason
          escalated_at := now
          requires_human_intervention := true } })

/-- `CommunicatorAgent.process`: log the final summary, set the terminal flag
and the completion timestamp; returns the whole context. -/
def communicator_process (now : String) (s : IncidentState) :
    Except String PartialUpdate :=
  .ok (PartialUpdate.ofState
    { s with
      workflow_complete := true
      completion_timestamp := some now })

/-! ## workflows/parallel_workflow.py: decision engine, error handler, routing -/

/-- The configured thresholds (core/config.py defaults:
`CONFIDENCE_THRESHOLD = 0.8`, `MAX_RETRIES = 3`). -/
structure Config where
  confidence_threshold : ℚ
  max_retries : Nat
deriving DecidableEq

def defaultConfig : Config := { confidence_threshold := mkRat 4 5, max_retries := 3 }

/-- `decision_maker_node`: a pure function of the merged context.  The first
matching rule of the fixed cascade wins; the metrics are recorded regardless
of the branch; the body is total, so the `except` fallback of the source
cannot trigger. -/
def decision_maker_node (cfg : Config) (s : IncidentState) : PartialUpdate :=
  let confidence := ((s.root_cause_results.map (fun r => r.confidence)).getD 0)
  let anomalies := ((s.log_analysis_results.map (fun r => r.anomalies)).getD [])
  let similar := ((s.knowledge_lookup_results.map (fun r => r.similar_incidents)).getD [])
  let anomalies_found := !anomalies.isEmpty
  let similar_found := !similar.isEmpty
  let retry_count := s.retry_count
  let chosen :=
    if cfg.max_retries ≤ retry_count then
      ("escalation",
        "Max retries (" ++ toString cfg.max_retries ++ ") reached without finding anomalies")
    else if !anomalies_found then
      ("escalation", "No anomalies detected in log analysis")
    else if confidence < cfg.confidence_threshold then
      ("escalation", "Low confidence (" ++ pyFormat2f confidence ++ ") in root cause analysis")
    else if !similar_found then
      ("escalation", "No similar historical incidents found for guidance")
    else ("auto_mitigation", "")
  let next_step := if chosen.1 = "auto_mitigation" then "mitigation" else "escalation"
  PartialUpdate.ofState
    { s with
      decision := chosen.1
      decision_metrics := some
        { confidence := confidence
          anomalies_found := anomalies_found
          similar_incidents_count := similar.length
          retry_count := retry_count
          escalation_reason := chosen.2 }
      escalation_reason := chosen.2
      stage := "decision_complete"
      next := next_step }

/-- `error_handler_node`: `send_escalation_alert` never raises (`send_email`
catches everything), so the node always takes its success branch, marking the
stage `error_handled` and forcing the terminal flag. -/
def error_handler_node (s : IncidentState) : PartialUpdate :=
  PartialUpdate.ofState
    { s with
      stage := "error_handled"
      workflow_complete := true
      error_handled := some true }

inductive RouteFromTrigger
  | parallel
  | errorHandler
  | finished
deriving DecidableEq

/-- `route_to_parallel_agents`. -/
def route_to_parallel_agents (s : IncidentState) : RouteFromTrigger :=
  if s.next = "parallel_agents" then .parallel
  else if s.next = "error_handler" then .errorHandler
  else .finished

inductive RouteFromCoordination
  | errorHandler
  | toDecision
deriving DecidableEq

/-- `route_after_coordination`: only the presence of the `error` key matters. -/
def route_after_coordination (s : IncidentState) : RouteFromCoordination :=
  if s.error.isSome then .errorHandler else .toDecision

inductive RouteFromDecision
  | toMitigation
  | toEscalation
  | errorHandler
  | finished
deriving DecidableEq

/-- `route_after_decision`. -/
def route_after_decision (s : IncidentState) : RouteFromDecision :=
  if s.next = "mitigation" then .toMitigation
  else if s.next = "escalation" then .toEscalation
  else if s.next = "error_handler" then .errorHandler
  else .finished

/-! ## The graph driver (`ParallelIncidentWorkflow.create_workflow`)

Topology: `incident_trigger` → conditional fan-out to the three parallel
agents → `agent_coordinator` → conditional → `decision_maker` → conditional →
`mitigation`/`escalation` → `communicator` → `END`, with `error_handler` →
`END`.  The three parallel task units all read the snapshot taken at fan-out
time; their update dicts are folded into the context one at a time in an
arbitrary arrival order (spec section 4.2/4.3). -/

/-- The three members of the parallel group. -/
inductive ParTask
  | lg
  | kn
  | rc
deriving DecidableEq

def allParTasks : List ParTask := [.lg, .kn, .rc]

/-- Everything the environment feeds one run: identifiers, wall-clock strings,
the raw alert, and the collaborator responses (Gemini, knowledge file). -/
structure Oracles where
  incident_id : String
  created_at : String
  now : String
  raw_alert : String
  parse : ParseOutcome
  log_anomalies : List String
  past_incidents : List PastIncident
  rc_response : String
  mit_response : String
deriving DecidableEq

/-- The update one member of the parallel group produces from the fan-out
snapshot (agent wrapped by `_wrap_agent`, whose own exception guard is
unreachable because `execute` catches internally). -/
def parallel_update (o : Oracles) (snapshot : IncidentState) : ParTask → PartialUpdate
  | .lg => base_agent_execute .log_analysis o.now
      (log_analysis_process o.log_anomalies o.now) snapshot
  | .kn => base_agent_execute .knowledge_lookup o.now
      (knowledge_lookup_process o.past_incidents o.now) snapshot
  | .rc => base_agent_execute .root_cause o.now
      (root_cause_process o.rc_response o.now) snapshot

/-- Context after the trigger node. -/
def stateAfterTrigger (o : Oracles) : IncidentState :=
  let s0 := create_incident_state o.incident_id o.raw_alert o.created_at
  applyUpdate s0 (base_agent_execute .incident_trigger o.now
    (incident_trigger_process o.parse) s0)

/-- Context after folding the three parallel results in arrival order
`arrival` (each computed from the fan-out snapshot). -/
def stateAfterParallel (o : Oracles) (arrival : List ParTask) : IncidentState :=
  let snapshot := stateAfterTrigger o
  arrival.foldl (fun s p => applyUpdate s (parallel_update o snapshot p)) snapshot

/-- Context after the coordinator node. -/
def stateAfterCoordination (o : Oracles) (arrival : List ParTask) : IncidentState :=
  let s := stateAfterParallel o arrival
  applyUpdate s (base_agent_execute .agent_coordinator o.now
    (agent_coordinator_process o.now) s)

/-- The terminal-action tail shared by both branches:
the chosen action node, then the communicator, then `END`. -/
def finalize_through (o : Oracles) (k : AgentKind)
    (proc : IncidentState → Except String PartialUpdate) (s : IncidentState) :
    IncidentState :=
  let s1 := applyUpdate s (base_agent_execute k o.now proc s)
  applyUpdate s1 (base_agent_execute .communicator o.now (communicator_process o.now) s1)

/-- One end-to-end run of the compiled workflow, for a given arrival order of
the parallel results. -/
def runWorkflow (cfg : Config) (o : Oracles) (arrival : List ParTask) : IncidentState :=
  let s1 := stateAfterTrigger o
  match route_to_parallel_agents s1 with
  | .errorHandler => applyUpdate s1 (error_handler_node s1)
  | .finished => s1
  | .parallel =>
    let s3 := stateAfterCoordination o arrival
    match route_after_coordination s3 with
    | .errorHandler => applyUpdate s3 (error_handler_node s3)
    | .toDecision =>
      let s4 := applyUpdate s3 (decision_maker_node cfg s3)
      match route_after_decision s4 with
      | .errorHandler => applyUpdate s4 (error_handler_node s4)
      | .finished => s4
      | .toMitigation =>
        finalize_through o .mitigation (mitigation_process o.mit_response o.now) s4
      | .toEscalation =>
        finalize_through o .escalation (escalation_process o.now) s4

/-! ## Concrete fixtures used by counterexamples and witnesses -/

/-- A past incident whose service and keywords match the good-run oracles. -/
def incGood : PastIncident :=
  { service := "Unknown Service"
    anomaly := "database timeout"
    root_cause := "Connection pool exhausted"
    solution := "Restart the database"
    keywords := ["timeout"] }

/-- A healthy run: fallback parse, one anomaly, one matching past incident,
confidence 0.92, mitigation reports success. -/
def oGood : Oracles :=
  { incident_id := "INC-1"
    created_at := "t0"
    now := "t1"
    raw_alert := "Payment API database timeout"
    parse := .fallback
    log_anomalies := ["database timeout"]
    past_incidents := [incGood]
    rc_response := "ROOT_CAUSE: Pool exhausted\nCONFIDENCE: 0.92\nSOLUTION: Restart pool"
    mit_response := "SUCCESS: true\nDETAILS: done" }

/-- Same run except the mitigation collaborator reports failure. -/
def oMitFail : Oracles :=
  { oGood with mit_response := "SUCCESS: false\nDETAILS: rollback blocked" }

/-- Same run except the decoded alert JSON lacks the expected keys, so the
trigger task fails task-locally (`KeyError`). -/
def oTrigFail : Oracles :=
  { oGood with parse := .json { service := none, severity := none, description := none } }

/-! ## C2 — idempotent merge -/

def c2state : IncidentState := create_incident_state "INC-2" "alert" "t0"

def c2update : PartialUpdate :=
  { agents_completed := some ["log_analysis"]
    agent_errors := some [{ agent := "log_analysis", error := "boom", timestamp := "t1" }] }

/-- C2 counterexample: the two collection channels merge with `operator.add`
(list concatenation), so applying the same PartialUpdate twice duplicates the
completion entry and the error entry instead of being idempotent. -/
theorem c2_counterexample :
    ¬ ((applyUpdate (applyUpdate c2state c2update) c2update).agents_completed =
          (applyUpdate c2state c2update).agents_completed ∧
        (applyUpdate (applyUpdate c2state c2update) c2update).agent_errors =
          (applyUpdate c2state c2update).agent_errors) := by
  decide

/-- C2 amended: the completion-set and error-log merges are list
concatenation, not union: re-applying the same PartialUpdate appends a
duplicate copy of its entries, so the lists after two applications are the
once-applied lists extended by the update's entries again; membership in the
completion set is nevertheless idempotent. -/
theorem c2_merge_is_concat_not_union (s : IncidentState) (u : PartialUpdate) :
    (applyUpdate (applyUpdate s u) u).agents_completed =
      (applyUpdate s u).agents_completed ++ u.agents_completed.getD [] ∧
    (applyUpdate (applyUpdate s u) u).agent_errors =
      (applyUpdate s u).agent_errors ++ u.agent_errors.getD [] ∧
    ∀ a : String, a ∈ (applyUpdate (applyUpdate s u) u).agents_completed ↔
      a ∈ (applyUpdate s u).agents_completed := by
  refine ⟨rfl, rfl, fun a => ?_⟩
  simp only [applyUpdate, List.mem_append]
  tauto

/-! ## C3 — decision priority -/

/-- C3: the decision engine picks the branch by the fixed cascade, first
matching rule wins: (1) retry counter at the maximum escalates with the
max-retries reason regardless of every other field; (2) otherwise an empty
anomaly list escalates citing the empty anomalies (before confidence is even
considered); (3) otherwise low confidence escalates; (4) otherwise an empty
similar-incident list escalates; (5) otherwise the branch is auto-mitigation. -/
theorem c3_decision_priority (s : IncidentState) :
    (defaultConfig.max_retries ≤ s.retry_count →
      (decision_maker_node defaultConfig s).decision = some "escalation" ∧
      (decision_maker_node defaultConfig s).escalation_reason =
        some "Max retries (3) reached without finding anomalies") ∧
    (s.retry_count < defaultConfig.max_retries →
      (s.log_analysis_results.map (fun r => r.anomalies)).getD [] = [] →
      (decision_maker_node defaultConfig s).decision = some "escalation" ∧
      (decision_maker_node defaultConfig s).escalation_reason =
        some "No anomalies detected in log analysis") ∧
    (s.retry_count < defaultConfig.max_retries →
      (s.log_analysis_results.map (fun r => r.anomalies)).getD [] ≠ [] →
      (s.root_cause_results.map (fun r => r.confidence)).getD 0 <
        defaultConfig.confidence_threshold →
      (decision_maker_node defaultConfig s).decision = some "escalation") ∧
    (s.retry_count < defaultConfig.max_retries →
      (s.log_analysis_results.map (fun r => r.anomalies)).getD [] ≠ [] →
      ¬ (s.root_cause_results.map (fun r => r.confidence)).getD 0 <
        defaultConfig.confidence_threshold →
      (s.knowledge_lookup_results.map (fun r => r.similar_incidents)).getD [] = [] →
      (decision_maker_node defaultConfig s).decision = some "escalation" ∧
      (decision_maker_node defaultConfig s).escalation_reason =
        some "No similar historical incidents found for guidance") ∧
    (s.retry_count < defaultConfig.max_retries →
      (s.log_analysis_results.map (fun r => r.anomalies)).getD [] ≠ [] →
      ¬ (s.root_cause_results.map (fun r => r.confidence)).getD 0 <
        defaultConfig.confidence_threshold →
      (s.knowledge_lookup_results.map (fun r => r.similar_incidents)).getD [] ≠ [] →
      (decision_maker_node defaultConfig s).decision = some "auto_mitigation" ∧
      (decision_maker_node defaultConfig s).escalation_reason = some "") := by
  refine ⟨fun h1 => ?_, fun h1 h2 => ?_, fun h1 h2 h3 => ?_,
    fun h1 h2 h3 h4 => ?_, fun h1 h2 h3 h4 => ?_⟩
  · simp only [decision_maker_node, PartialUpdate.ofState, if_pos h1]
    exact ⟨by decide, by decide⟩
  · have h1' : ¬ defaultConfig.max_retries ≤ s.retry_count := by omega
    simp [decision_maker_node, PartialUpdate.ofState, h1', h2]
  · have h1' : ¬ defaultConfig.max_retries ≤ s.retry_count := by omega
    simp [decision_maker_node, PartialUpdate.ofState, h1', h2, h3]
  · have h1' : ¬ defaultConfig.max_retries ≤ s.retry_count := by omega
    simp [decision_maker_node, PartialUpdate.ofState, h1', h2, h3, h4]
  · have h1' : ¬ defaultConfig.max_retries ≤ s.retry_count := by omega
    simp [decision_maker_node, PartialUpdate.ofState, h1', h2, h3, h4]

/-- A merged context matching the claim's second pinned instance:
retries 0, empty anomaly list, confidence 0.9, one similar incident. -/
def c3state : IncidentState :=
  { create_incident_state "INC-3" "alert" "t0" with
    log_analysis_results := some
      { service := "S", anomalies := [], retry_count := 0,
        analysis_timestamp := "t1", anomalies_found := false }
    knowledge_lookup_results := some
      { service := "S", search_keywords := ["x"], similar_incidents := [incGood],
        similar_count := 1, search_timestamp := "t1" }
    root_cause_results := some
      { service := "S", incident_info := "i", root_cause := "c", confidence := mkRat 9 10,
        solution := "fix", similar_incidents_used := 1, analysis_timestamp := "t1" }
    retry_count := 0 }

/-- C3 witness: at retries 5 the engine escalates regardless of the other
fields, and at the second pinned instance it escalates citing the empty
anomalies even though confidence is 0.9 and a similar incident exists. -/
theorem c3_decision_priority_witness :
    ((decision_maker_node defaultConfig { c3state with retry_count := 5 }).decision =
        some "escalation") ∧
    (decision_maker_node defaultConfig c3state).decision = some "escalation" ∧
    (decision_maker_node defaultConfig c3state).escalation_reason =
      some "No anomalies detected in log analysis" :=
  ⟨((c3_decision_priority { c3state with retry_count := 5 }).1 (by decide)).1,
    (c3_decision_priority c3state).2.1 (by decide) (by decide)⟩

/-! ## C9 — confidence range of the hypothesis collaborator -/

instance {ε α : Type} [DecidableEq ε] [DecidableEq α] : DecidableEq (Except ε α) := fun x y =>
  match x, y with
  | .ok a, .ok b =>
    if h : a = b then isTrue (congrArg Except.ok h)
    else isFalse (fun hc => h (Except.ok.inj hc))
  | .error a, .error b =>
    if h : a = b then isTrue (congrArg Except.error h)
    else isFalse (fun hc => h (Except.error.inj hc))
  | .ok _, .error _ => isFalse (fun hc => Except.noConfusion hc)
  | .error _, .ok _ => isFalse (fun hc => Except.noConfusion hc)

/-- C9 counterexample: a model response announcing `CONFIDENCE: 2.5` is
parsed and returned unclamped, so the confidence component leaves `[0,1]`. -/
theorem c9_counterexample :
    generate_root_cause "CONFIDENCE: 2.5" =
      .ok ("Unknown cause", mkRat 5 2, "Investigate and fix") ∧
    ¬ mkRat 5 2 ≤ 1 :=
  ⟨by rfl, by decide⟩

theorem pythonFloatOfToken_nonneg (tok : List Char) (q : ℚ)
    (h : pythonFloatOfToken tok = some q) : 0 ≤ q := by
  unfold pythonFloatOfToken at h
  split at h
  · exact absurd h (by simp)
  · split at h
    · exact absurd h (by simp)
    · simp only [Option.some.injEq] at h
      subst h
      rw [Rat.mkRat_eq_div]
      positivity

/-- C9 amended: the confidence component of `generate_root_cause` is never
negative (the regex token has no sign), and is the default 0.7 when no
`CONFIDENCE` token parses, but it is not clamped above: it lies in `[0,1]`
only when the parsed decimal does. -/
theorem c9_confidence_nonneg (response cause remedy : String) (q : ℚ)
    (h : generate_root_cause response = .ok (cause, q, remedy)) : 0 ≤ q := by
  simp only [generate_root_cause] at h
  split at h
  · simp only [Except.ok.injEq, Prod.mk.injEq] at h
    rw [← h.2.1]
    norm_num
  · split at h
    · exact absurd h (by simp)
    · simp only [Except.ok.injEq, Prod.mk.injEq] at h
      rw [← h.2.1]
      exact pythonFloatOfToken_nonneg _ _ (by assumption)

/-- C9 witness: a well-formed response is parsed to its (nonnegative)
decimal value. -/
theorem c9_confidence_nonneg_witness :
    generate_root_cause "CONFIDENCE: 0.92" =
      .ok ("Unknown cause", mkRat 23 25, "Investigate and fix") ∧ (0 : ℚ) ≤ mkRat 23 25 :=
  ⟨by rfl,
    c9_confidence_nonneg "CONFIDENCE: 0.92" "Unknown cause" "Investigate and fix"
      (mkRat 23 25) (by rfl)⟩

/-! ## C10 — similarity lookup -/

instance : IsTotal (PastIncident × Nat) (fun a b => b.2 ≤ a.2) :=
  ⟨fun a b => Nat.le_total b.2 a.2⟩

instance : IsTrans (PastIncident × Nat) (fun a b => b.2 ≤ a.2) :=
  ⟨fun _ _ _ hab hbc => Nat.le_trans hbc hab⟩

/-- C10: `find_similar_incidents` returns at most three incidents, in
non-increasing order of their computed similarity score, and only incidents
whose score strictly exceeds `0.3` (three tenths). -/
theorem c10_find_similar_incidents (anomalies : List String) (service : String)
    (past : List PastIncident) :
    (find_similar_incidents anomalies service past).length ≤ 3 ∧
    (find_similar_incidents anomalies service past).Pairwise
      (fun a b => similarityScore anomalies service b ≤ similarityScore anomalies service a) ∧
    ∀ inc ∈ find_similar_incidents anomalies service past,
      3 < similarityScore anomalies service inc := by
  have hmem : ∀ p ∈ List.insertionSort (fun a b : PastIncident × Nat => b.2 ≤ a.2)
      ((past.map (fun inc => (inc, similarityScore anomalies service inc))).filter
        (fun p => 3 < p.2)),
      p.2 = similarityScore anomalies service p.1 ∧ 3 < p.2 := by
    intro p hp
    rw [(List.perm_insertionSort _ _).mem_iff, List.mem_filter] at hp
    obtain ⟨hpm, hpd⟩ := hp
    obtain ⟨inc, _, hinc⟩ := List.mem_map.mp hpm
    refine ⟨?_, by simpa using hpd⟩
    rw [← hinc]
  refine ⟨?_, ?_, ?_⟩
  · simp [find_similar_incidents]
  · have hs := List.sorted_insertionSort (fun a b : PastIncident × Nat => b.2 ≤ a.2)
      ((past.map (fun inc => (inc, similarityScore anomalies service inc))).filter
        (fun p => 3 < p.2))
    have htake := hs.sublist (List.take_sublist 3 _)
    rw [find_similar_incidents, List.pairwise_map]
    refine htake.imp_of_mem ?_
    intro a b ha hb hr
    have ha' := hmem a ((List.take_subset 3 _) ha)
    have hb' := hmem b ((List.take_subset 3 _) hb)
    rw [← ha'.1, ← hb'.1]
    exact hr
  · intro inc hinc
    rw [find_similar_incidents] at hinc
    obtain ⟨p, hp, hpe⟩ := List.mem_map.mp hinc
    have hp' := hmem p ((List.take_subset 3 _) hp)
    rw [← hpe, ← hp'.1]
    exact hp'.2

/-- C10 witness: at a concrete matching incident the returned entry has a
score above the threshold. -/
theorem c10_find_similar_incidents_witness :
    3 < similarityScore ["database timeout"] "Unknown Service" incGood :=
  (c10_find_similar_incidents ["database timeout"] "Unknown Service" [incGood]).2.2
    incGood (by decide)

/-! ## C6 — failure containment at the task-unit boundary -/

/-- A task-internal computation that fails unconditionally. -/
def c6FailingProc : IncidentState → Except String PartialUpdate := fun _ => .error "boom"

def c6state : IncidentState := create_incident_state "INC-6" "alert" "t0"

/-- C6 counterexample: on an internal failure the returned PartialUpdate is
not only the completion-set entry and the error-log entry — it spreads the
whole input context (here its `raw_alert` and `stage` keys) and explicitly
sets the task's result slot to the empty dict. -/
theorem c6_counterexample :
    (base_agent_execute .knowledge_lookup "t1" c6FailingProc c6state).raw_alert =
      some "alert" ∧
    (base_agent_execute .knowledge_lookup "t1" c6FailingProc c6state).knowledge_lookup_results =
      some none ∧
    (base_agent_execute .knowledge_lookup "t1" c6FailingProc c6state).stage =
      some "detected" :=
  ⟨rfl, rfl, rfl⟩

/-- C6 amended: `execute` never raises (it is a total function of the
process outcome), and on an internal failure of any kind it returns a
PartialUpdate carrying exactly this task's completion-set entry, exactly one
error-log entry (task name, message, timestamp) — but also the entire input
snapshot spread over every other key, with the task's own result slot set to
the empty dict. -/
theorem c6_failure_contained (k : AgentKind) (now : String)
    (process : IncidentState → Except String PartialUpdate) (s : IncidentState)
    (e : String) (h : process s = .error e) :
    (base_agent_execute k now process s).agents_completed = some [k.agentId] ∧
    (base_agent_execute k now process s).agent_errors =
      some [{ agent := k.agentId, error := e, timestamp := now }] ∧
    (base_agent_execute k now process s).raw_alert = some s.raw_alert ∧
    (base_agent_execute k now process s).service = some s.service ∧
    (base_agent_execute k now process s).stage = some s.stage ∧
    (base_agent_execute k now process s).next = some s.next ∧
    (base_agent_execute k now process s).retry_count = some s.retry_count ∧
    (base_agent_execute k now process s).workflow_complete = some s.workflow_complete := by
  unfold base_agent_execute
  rw [h]
  cases k <;> exact ⟨rfl, rfl, rfl, rfl, rfl, rfl, rfl, rfl⟩

/-- C6 witness: the containment facts at a concrete failing task. -/
theorem c6_failure_contained_witness :
    (base_agent_execute .log_analysis "t1" c6FailingProc c6state).agents_completed =
      some ["log_analysis"] ∧
    (base_agent_execute .log_analysis "t1" c6FailingProc c6state).agent_errors =
      some [{ agent := "log_analysis", error := "boom", timestamp := "t1" }] :=
  ⟨(c6_failure_contained .log_analysis "t1" c6FailingProc c6state "boom" rfl).1,
    (c6_failure_contained .log_analysis "t1" c6FailingProc c6state "boom" rfl).2.1⟩

/-! ## C7 — parallel tasks return deltas, not the whole context -/

/-- The two states agree on every context field other than the three parallel
result slots and the two shared collection channels. -/
def AgreesOutsideParallel (s t : IncidentState) : Prop :=
  s.incident_id = t.incident_id ∧ s.raw_alert = t.raw_alert ∧ s.timestamp = t.timestamp ∧
  s.stage = t.stage ∧ s.service = t.service ∧ s.severity = t.severity ∧
  s.description = t.description ∧ s.decision = t.decision ∧
  s.decision_metrics = t.decision_metrics ∧ s.escalation_reason = t.escalation_reason ∧
  s.next = t.next ∧ s.retry_count = t.retry_count ∧
  s.workflow_complete = t.workflow_complete ∧ s.error = t.error ∧
  s.coordination_status = t.coordination_status ∧ s.missing_agents = t.missing_agents ∧
  s.coordination_timestamp = t.coordination_timestamp ∧
  s.mitigation_failed = t.mitigation_failed ∧ s.mitigation_results = t.mitigation_results ∧
  s.escalation_results = t.escalation_results ∧
  s.completion_timestamp = t.completion_timestamp ∧ s.error_handled = t.error_handled ∧
  s.incident_trigger_results = t.incident_trigger_results ∧
  s.agent_coordinator_results = t.agent_coordinator_results ∧
  s.communicator_results = t.communicator_results

/-- On a successful `process`, `execute` only adjusts the completion entry of
the returned update: every other component is the process result's. -/
theorem base_agent_execute_proj (k : AgentKind) (now : String)
    (process : IncidentState → Except String PartialUpdate) (s : IncidentState)
    (u : PartialUpdate) (h : process s = .ok u) :
    (base_agent_execute k now process s).knowledge_lookup_results =
      u.knowledge_lookup_results ∧
    (base_agent_execute k now process s).root_cause_results = u.root_cause_results ∧
    (base_agent_execute k now process s).log_analysis_results = u.log_analysis_results ∧
    (base_agent_execute k now process s).stage = u.stage ∧
    (base_agent_execute k now process s).agent_errors = u.agent_errors := by
  unfold base_agent_execute
  rw [h]
  dsimp only
  cases hc : u.agents_completed with
  | none => exact ⟨rfl, rfl, rfl, rfl, rfl⟩
  | some l =>
    dsimp only
    by_cases hm : k.agentId ∈ l
    · rw [if_pos hm]
      exact ⟨rfl, rfl, rfl, rfl, rfl⟩
    · rw [if_neg hm]
      exact ⟨rfl, rfl, rfl, rfl, rfl⟩

/-- C7 counterexample: the log-analysis task's PartialUpdate is the whole
context, not a delta: computed from the post-trigger snapshot it carries
`raw_alert` and even its siblings' result slots. -/
theorem c7_counterexample :
    (parallel_update oGood (stateAfterTrigger oGood) .lg).raw_alert =
      some "Payment API database timeout" ∧
    (parallel_update oGood (stateAfterTrigger oGood) .lg).knowledge_lookup_results =
      some none ∧
    (parallel_update oGood (stateAfterTrigger oGood) .lg).root_cause_results =
      some none :=
  ⟨rfl, rfl, rfl⟩

/-- C7 amended: the knowledge-lookup task (always) and the root-cause task
(whenever its collaborator parsing succeeds) return only their own result
slot plus the completion entry, leaving every other field of any context they
are merged into untouched; the log-analysis task instead returns the whole
snapshot, so merging its update overwrites its siblings' result slots (and
the stage) with the snapshot's values. -/
theorem c7_parallel_delta_discipline (o : Oracles) (snapshot target : IncidentState) :
    (AgreesOutsideParallel
        (applyUpdate target (parallel_update o snapshot .kn)) target ∧
      (applyUpdate target (parallel_update o snapshot .kn)).log_analysis_results =
        target.log_analysis_results ∧
      (applyUpdate target (parallel_update o snapshot .kn)).root_cause_results =
        target.root_cause_results) ∧
    ((generate_root_cause o.rc_response).isOk = true →
      AgreesOutsideParallel
        (applyUpdate target (parallel_update o snapshot .rc)) target ∧
      (applyUpdate target (parallel_update o snapshot .rc)).log_analysis_results =
        target.log_analysis_results ∧
      (applyUpdate target (parallel_update o snapshot .rc)).knowledge_lookup_results =
        target.knowledge_lookup_results) ∧
    ((applyUpdate target (parallel_update o snapshot .lg)).knowledge_lookup_results =
        snapshot.knowledge_lookup_results ∧
      (applyUpdate target (parallel_update o snapshot .lg)).root_cause_results =
        snapshot.root_cause_results ∧
      (applyUpdate target (parallel_update o snapshot .lg)).stage = snapshot.stage) := by
  refine ⟨?_, ?_, ?_⟩
  · exact ⟨⟨rfl, rfl, rfl, rfl, rfl, rfl, rfl, rfl, rfl, rfl, rfl, rfl, rfl, rfl, rfl,
      rfl, rfl, rfl, rfl, rfl, rfl, rfl, rfl, rfl, rfl⟩, rfl, rfl⟩
  · intro hok
    rcases hg : generate_root_cause o.rc_response with e | t
    · rw [hg] at hok
      simp [Except.isOk, Except.toBool] at hok
    · obtain ⟨cause, conf, sol⟩ := t
      have hred : parallel_update o snapshot .rc =
          { root_cause_results := some (some
              { service := snapshot.service
                incident_info := "Service: " ++ snapshot.service ++ ", Description: " ++
                  snapshot.description ++ ", Anomalies: " ++
                  joinComma ((snapshot.log_analysis_results.map
                    (fun r => r.anomalies)).getD [snapshot.description])
                root_cause := cause
                confidence := conf
                solution := sol
                similar_incidents_used := ((snapshot.knowledge_lookup_results.map
                  (fun r => r.similar_incidents)).getD []).length
                analysis_timestamp := o.now })
            agents_completed := some ["root_cause"] } := by
        simp [parallel_update, base_agent_execute, root_cause_process, hg,
          AgentKind.agentId]
      rw [hred]
      exact ⟨⟨rfl, rfl, rfl, rfl, rfl, rfl, rfl, rfl, rfl, rfl, rfl, rfl, rfl, rfl, rfl,
        rfl, rfl, rfl, rfl, rfl, rfl, rfl, rfl, rfl, rfl⟩, rfl, rfl⟩
  · obtain ⟨hkn, hrc, -, hst, -⟩ :=
      base_agent_execute_proj .log_analysis o.now
        (log_analysis_process o.log_anomalies o.now) snapshot _ rfl
    refine ⟨?_, ?_, ?_⟩ <;>
      simp [applyUpdate, parallel_update, hkn, hrc, hst, PartialUpdate.ofState]

/-- C7 witness: at the concrete good-run snapshot the root-cause parsing
succeeds and its merged update leaves every non-own field untouched. -/
theorem c7_parallel_delta_discipline_witness :
    AgreesOutsideParallel
      (applyUpdate (stateAfterTrigger oGood)
        (parallel_update oGood (stateAfterTrigger oGood) .rc))
      (stateAfterTrigger oGood) :=
  ((c7_parallel_delta_discipline oGood (stateAfterTrigger oGood)
    (stateAfterTrigger oGood)).2.1 rfl).1

/-! ## C1 — order (in)dependence of the parallel merge -/

/-- On a successful `process`, `execute` returns the process's update with at
most the completion entry replaced. -/
theorem base_agent_execute_ok_shape (k : AgentKind) (now : String)
    (process : IncidentState → Except String PartialUpdate) (s : IncidentState)
    (u : PartialUpdate) (h : process s = .ok u) :
    ∃ l, base_agent_execute k now process s = { u with agents_completed := l } := by
  unfold base_agent_execute
  rw [h]
  dsimp only
  cases hc : u.agents_completed with
  | none => exact ⟨some [k.agentId], rfl⟩
  | some l =>
    dsimp only
    by_cases hm : k.agentId ∈ l
    · rw [if_pos hm]
      exact ⟨some l, by rw [← hc]⟩
    · rw [if_neg hm]
      exact ⟨some (l ++ [k.agentId]), rfl⟩

theorem getD_map_some {α : Type} (x : Option α) : (x.map some).getD x = x := by
  cases x <;> rfl

theorem orElse_self {α : Type} (x : Option α) : (x.orElse fun _ => x) = x := by
  cases x <;> rfl

set_option maxRecDepth 10000

/-- C1: the merged context is NOT independent of the arrival order of the
three parallel results.  The log-analysis task returns the whole snapshot
(src/agents/log_analysis.py, `return {**state, ...}`) although its two
siblings return only their own slot, explicitly "for TRUE parallel
execution"; when the log-analysis update is merged last, the snapshot's empty
sibling slots overwrite the siblings' results, and the run escalates instead
of resolving.  The claim is the documented intent; the whole-context return
is the slip. -/
theorem c1_order_dependence :
    [ParTask.kn, ParTask.rc, ParTask.lg].Perm [ParTask.lg, ParTask.kn, ParTask.rc] ∧
    (runWorkflow defaultConfig oGood [.lg, .kn, .rc]).stage = "resolved" ∧
    (runWorkflow defaultConfig oGood [.kn, .rc, .lg]).stage = "escalated" ∧
    (runWorkflow defaultConfig oGood [.lg, .kn, .rc]).knowledge_lookup_results.isSome =
      true ∧
    (runWorkflow defaultConfig oGood [.kn, .rc, .lg]).knowledge_lookup_results = none ∧
    (runWorkflow defaultConfig oGood [.kn, .rc, .lg]).root_cause_results = none :=
  ⟨by decide, rfl, rfl, rfl, rfl, rfl⟩

/-! ## C4 — mitigation failure handling -/

/-- C4 counterexample: in a run whose decision is auto-mitigation and whose
mitigation collaborator reports failure, the escalation reason is set but the
escalation terminal action never runs and the final stage label is
`mitigating`, not `escalated`. -/
theorem c4_counterexample :
    (simulate_mitigation oMitFail.mit_response).1 = false ∧
    (runWorkflow defaultConfig oMitFail [.lg, .kn, .rc]).decision = "auto_mitigation" ∧
    (runWorkflow defaultConfig oMitFail [.lg, .kn, .rc]).stage = "mitigating" ∧
    ¬ (runWorkflow defaultConfig oMitFail [.lg, .kn, .rc]).stage = "escalated" ∧
    (runWorkflow defaultConfig oMitFail [.lg, .kn, .rc]).escalation_reason =
      "Mitigation failed: rollback blocked" ∧
    (runWorkflow defaultConfig oMitFail [.lg, .kn, .rc]).escalation_results = none ∧
    (runWorkflow defaultConfig oMitFail [.lg, .kn, .rc]).workflow_complete = true :=
  ⟨rfl, rfl, rfl, by decide, rfl, rfl, rfl⟩

/-- The communicator tail of `finalize_through` always sets the terminal
flag and leaves the action node's stage, reason and results untouched. -/
theorem finalize_through_comm_proj (o : Oracles) (k : AgentKind)
    (proc : IncidentState → Except String PartialUpdate) (s : IncidentState) :
    (finalize_through o k proc s).workflow_complete = true ∧
    (finalize_through o k proc s).stage =
      (applyUpdate s (base_agent_execute k o.now proc s)).stage ∧
    (finalize_through o k proc s).escalation_reason =
      (applyUpdate s (base_agent_execute k o.now proc s)).escalation_reason ∧
    (finalize_through o k proc s).escalation_results =
      (applyUpdate s (base_agent_execute k o.now proc s)).escalation_results ∧
    (finalize_through o k proc s).mitigation_failed =
      (applyUpdate s (base_agent_execute k o.now proc s)).mitigation_failed := by
  unfold finalize_through
  dsimp only
  obtain ⟨l2, hE2⟩ := base_agent_execute_ok_shape .communicator o.now
    (communicator_process o.now)
    (applyUpdate s (base_agent_execute k o.now proc s)) _ rfl
  rw [hE2]
  simp [applyUpdate, PartialUpdate.ofState, getD_map_some, orElse_self]

/-- C4 amended: on reported mitigation failure the run records the
escalation reason and `mitigation_failed` and proceeds directly to finalize
through the communicator — the escalation terminal action does not run
(`escalation_results` stays untouched) and the final stage label remains
`mitigating`; on reported success the stage transitions to `resolved` and
then to finalize.  In both cases finalize sets the terminal flag. -/
theorem c4_mitigation_branch (o : Oracles) (s : IncidentState) (det : String) :
    (simulate_mitigation o.mit_response = (false, det) →
      (finalize_through o .mitigation (mitigation_process o.mit_response o.now) s).stage =
        "mitigating" ∧
      (finalize_through o .mitigation
          (mitigation_process o.mit_response o.now) s).escalation_reason =
        "Mitigation failed: " ++ det ∧
      (finalize_through o .mitigation
          (mitigation_process o.mit_response o.now) s).workflow_complete = true ∧
      (finalize_through o .mitigation
          (mitigation_process o.mit_response o.now) s).escalation_results =
        s.escalation_results ∧
      (finalize_through o .mitigation
          (mitigation_process o.mit_response o.now) s).mitigation_failed = some true) ∧
    (simulate_mitigation o.mit_response = (true, det) →
      (finalize_through o .mitigation (mitigation_process o.mit_response o.now) s).stage =
        "resolved" ∧
      (finalize_through o .mitigation
          (mitigation_process o.mit_response o.now) s).workflow_complete = true) := by
  constructor
  · intro hfail
    have hproc : mitigation_process o.mit_response o.now s = .ok (PartialUpdate.ofState
        { s with
          stage := "mitigating"
          mitigation_failed := some true
          escalation_reason := "Mitigation failed: " ++ det
          mitigation_results := some
            { solution := ((s.root_cause_results.map (fun r => r.solution)).getD
                "Generic restart and investigation")
              success := false
              details := det
              execution_timestamp := o.now } }) := by
      simp [mitigation_process, hfail]
    obtain ⟨l1, hE1⟩ := base_agent_execute_ok_shape .mitigation o.now
      (mitigation_process o.mit_response o.now) s _ hproc
    obtain ⟨hcomp, hstage, hreason, hescres, hmf⟩ :=
      finalize_through_comm_proj o .mitigation (mitigation_process o.mit_response o.now) s
    refine ⟨?_, ?_, hcomp, ?_, ?_⟩
    · rw [hstage, hE1]
      simp [applyUpdate, PartialUpdate.ofState]
    · rw [hreason, hE1]
      simp [applyUpdate, PartialUpdate.ofState]
    · rw [hescres, hE1]
      simp [applyUpdate, PartialUpdate.ofState, getD_map_some]
    · rw [hmf, hE1]
      simp [applyUpdate, PartialUpdate.ofState]
  · intro hsucc
    have hproc : mitigation_process o.mit_response o.now s = .ok (PartialUpdate.ofState
        { s with
          stage := "resolved"
          mitigation_results := some
            { solution := ((s.root_cause_results.map (fun r => r.solution)).getD
                "Generic restart and investigation")
              success := true
              details := det
              execution_timestamp := o.now } }) := by
      simp [mitigation_process, hsucc]
    obtain ⟨l1, hE1⟩ := base_agent_execute_ok_shape .mitigation o.now
      (mitigation_process o.mit_response o.now) s _ hproc
    obtain ⟨hcomp, hstage, -, -, -⟩ :=
      finalize_through_comm_proj o .mitigation (mitigation_process o.mit_response o.now) s
    refine ⟨?_, hcomp⟩
    rw [hstage, hE1]
    simp [applyUpdate, PartialUpdate.ofState]

/-- C4 witness: the failure half of the branch behaviour at the concrete
failing-mitigation oracles. -/
theorem c4_mitigation_branch_witness :
    (finalize_through oMitFail .mitigation
        (mitigation_process oMitFail.mit_response oMitFail.now)
        (stateAfterTrigger oMitFail)).stage = "mitigating" ∧
    (finalize_through oMitFail .mitigation
        (mitigation_process oMitFail.mit_response oMitFail.now)
        (stateAfterTrigger oMitFail)).workflow_complete = true :=
  ⟨((c4_mitigation_branch oMitFail (stateAfterTrigger oMitFail) "rollback blocked").1
      (by rfl)).1,
    ((c4_mitigation_branch oMitFail (stateAfterTrigger oMitFail) "rollback blocked").1
      (by rfl)).2.2.1⟩

/-! ## C5 / C8 infrastructure: invariants of the driver -/

theorem setSlotEmpty_error (k : AgentKind) (u : PartialUpdate) :
    (k.setSlotEmpty u).error = u.error := by
  cases k <;> rfl

theorem setSlotEmpty_completed (k : AgentKind) (u : PartialUpdate) :
    (k.setSlotEmpty u).agents_completed = u.agents_completed := by
  cases k <;> rfl

theorem applyUpdate_error_none (t : IncidentState) (u : PartialUpdate)
    (ht : t.error = none) (hu : u.error = none) : (applyUpdate t u).error = none := by
  show (u.error.orElse fun _ => t.error) = none
  rw [hu, ht]
  rfl

/-- The `error` key is never produced by `execute`: its component in the
returned update is either absent or the snapshot's (absent) value. -/
theorem base_agent_execute_error_comp (k : AgentKind) (now : String)
    (process : IncidentState → Except String PartialUpdate) (s : IncidentState)
    (hs : s.error = none)
    (hok : ∀ u, process s = .ok u → u.error = none ∨ u.error = s.error) :
    (base_agent_execute k now process s).error = none := by
  unfold base_agent_execute
  rcases hp : process s with e | u
  · dsimp only
    rw [setSlotEmpty_error]
    exact hs
  · dsimp only
    have hu : u.error = none := by
      rcases hok u hp with h | h
      · exact h
      · rw [h, hs]
    cases hc : u.agents_completed with
    | none => exact hu
    | some l =>
      dsimp only
      by_cases hm : k.agentId ∈ l
      · rw [if_pos hm]
        exact hu
      · rw [if_neg hm]
        exact hu

theorem incident_trigger_process_error_comp (po : ParseOutcome) (s : IncidentState) :
    ∀ u, incident_trigger_process po s = .ok u → u.error = none ∨ u.error = s.error := by
  intro u h
  unfold incident_trigger_process at h
  dsimp only at h
  split at h
  · exact absurd h (by simp)
  · split at h
    · exact absurd h (by simp)
    · split at h
      · exact absurd h (by simp)
      · rw [← Except.ok.inj h]
        exact Or.inr rfl

theorem log_analysis_process_error_comp (an : List String) (now : String)
    (s : IncidentState) :
    ∀ u, log_analysis_process an now s = .ok u → u.error = none ∨ u.error = s.error := by
  intro u h
  rw [← Except.ok.inj h]
  exact Or.inr rfl

theorem knowledge_lookup_process_error_comp (past : List PastIncident) (now : String)
    (s : IncidentState) :
    ∀ u, knowledge_lookup_process past now s = .ok u →
      u.error = none ∨ u.error = s.error := by
  intro u h
  rw [← Except.ok.inj h]
  exact Or.inl rfl

theorem root_cause_process_error_comp (resp now : String) (s : IncidentState) :
    ∀ u, root_cause_process resp now s = .ok u → u.error = none ∨ u.error = s.error := by
  intro u h
  unfold root_cause_process at h
  dsimp only at h
  split at h
  · exact absurd h (by simp)
  · rw [← Except.ok.inj h]
    exact Or.inl rfl

theorem agent_coordinator_process_error_comp (now : String) (s : IncidentState) :
    ∀ u, agent_coordinator_process now s = .ok u → u.error = none ∨ u.error = s.error := by
  intro u h
  unfold agent_coordinator_process at h
  rw [← Except.ok.inj h]
  split <;> exact Or.inr rfl

theorem stateAfterTrigger_error (o : Oracles) : (stateAfterTrigger o).error = none := by
  unfold stateAfterTrigger
  exact applyUpdate_error_none _ _ rfl
    (base_agent_execute_error_comp _ _ _ _ rfl (incident_trigger_process_error_comp _ _))

theorem parallel_update_error (o : Oracles) (snap : IncidentState)
    (hs : snap.error = none) (p : ParTask) :
    (parallel_update o snap p).error = none := by
  cases p
  · exact base_agent_execute_error_comp _ _ _ _ hs (log_analysis_process_error_comp _ _ _)
  · exact base_agent_execute_error_comp _ _ _ _ hs
      (knowledge_lookup_process_error_comp _ _ _)
  · exact base_agent_execute_error_comp _ _ _ _ hs (root_cause_process_error_comp _ _ _)

theorem foldl_parallel_error_none (o : Oracles) (snap : IncidentState)
    (hs : snap.error = none) :
    ∀ (l : List ParTask) (t : IncidentState), t.error = none →
      (l.foldl (fun s p => applyUpdate s (parallel_update o snap p)) t).error = none := by
  intro l
  induction l with
  | nil => exact fun t ht => ht
  | cons p rest ih =>
    intro t ht
    exact ih _ (applyUpdate_error_none _ _ ht (parallel_update_error o snap hs p))

theorem stateAfterParallel_error (o : Oracles) (arrival : List ParTask) :
    (stateAfterParallel o arrival).error = none := by
  unfold stateAfterParallel
  exact foldl_parallel_error_none o _ (stateAfterTrigger_error o) arrival _
    (stateAfterTrigger_error o)

theorem stateAfterCoordination_error (o : Oracles) (arrival : List ParTask) :
    (stateAfterCoordination o arrival).error = none := by
  unfold stateAfterCoordination
  exact applyUpdate_error_none _ _ (stateAfterParallel_error o arrival)
    (base_agent_execute_error_comp _ _ _ _ (stateAfterParallel_error o arrival)
      (agent_coordinator_process_error_comp _ _))

/-- Every `execute` result carries its own agent id in the completion entry. -/
theorem base_agent_execute_completed_mem (k : AgentKind) (now : String)
    (process : IncidentState → Except String PartialUpdate) (s : IncidentState) :
    k.agentId ∈ (base_agent_execute k now process s).agents_completed.getD [] := by
  unfold base_agent_execute
  rcases hp : process s with e | u
  · dsimp only
    rw [setSlotEmpty_completed]
    simp
  · dsimp only
    cases hc : u.agents_completed with
    | none => simp
    | some l =>
      dsimp only
      by_cases hm : k.agentId ∈ l
      · rw [if_pos hm]
        rw [hc]
        exact hm
      · rw [if_neg hm]
        simp

/-- The task unit behind each member of the parallel group. -/
def parTaskKind : ParTask → AgentKind
  | .lg => .log_analysis
  | .kn => .knowledge_lookup
  | .rc => .root_cause

theorem parallel_update_completed_mem (o : Oracles) (snap : IncidentState) (p : ParTask) :
    (parTaskKind p).agentId ∈ (parallel_update o snap p).agents_completed.getD [] := by
  cases p <;> exact base_agent_execute_completed_mem _ _ _ _

/-- Folding the parallel updates only ever appends to the completion list. -/
theorem parallel_fold_mem (o : Oracles) (snap : IncidentState) :
    ∀ (l : List ParTask) (t : IncidentState),
      (∀ a, a ∈ t.agents_completed →
        a ∈ (l.foldl (fun s p => applyUpdate s (parallel_update o snap p))
          t).agents_completed) ∧
      (∀ p ∈ l, (parTaskKind p).agentId ∈
        (l.foldl (fun s p => applyUpdate s (parallel_update o snap p))
          t).agents_completed) := by
  intro l
  induction l with
  | nil => exact fun t => ⟨fun a h => h, by simp⟩
  | cons q rest ih =>
    intro t
    constructor
    · intro a ha
      exact (ih _).1 a (List.mem_append_left _ ha)
    · intro p hp
      rcases List.mem_cons.mp hp with rfl | hp'
      · exact (ih _).1 _
          (List.mem_append_right _ (parallel_update_completed_mem o snap p))
      · exact (ih _).2 p hp'

/-- C5: in every reachable execution, when the driver reaches the decision
stage the completion set already contains every expected parallel task (never
a strict subset), and once the parallel group has run — even with error-only
reports — coordination always routes to the decision maker. -/
theorem c5_fan_in_completeness (o : Oracles) (arrival : List ParTask)
    (hperm : arrival.Perm allParTasks)
    (_hpar : route_to_parallel_agents (stateAfterTrigger o) = .parallel) :
    (∀ a ∈ expected_agents, a ∈ (stateAfterCoordination o arrival).agents_completed) ∧
    route_after_coordination (stateAfterCoordination o arrival) = .toDecision := by
  constructor
  · have hmem : ∀ p : ParTask, (parTaskKind p).agentId ∈
        (stateAfterParallel o arrival).agents_completed := by
      intro p
      have hp : p ∈ arrival := hperm.mem_iff.mpr (by cases p <;> simp [allParTasks])
      exact (parallel_fold_mem o (stateAfterTrigger o) arrival (stateAfterTrigger o)).2 p hp
    have hcoord : ∀ b, b ∈ (stateAfterParallel o arrival).agents_completed →
        b ∈ (stateAfterCoordination o arrival).agents_completed := by
      intro b hb
      exact List.mem_append_left _ hb
    intro a ha
    simp only [expected_agents, List.mem_cons, List.not_mem_nil, or_false] at ha
    rcases ha with rfl | rfl | rfl
    · exact hcoord _ (hmem .lg)
    · exact hcoord _ (hmem .kn)
    · exact hcoord _ (hmem .rc)
  · unfold route_after_coordination
    rw [stateAfterCoordination_error o arrival]
    rfl

/-- C5 witness: a concrete permutation of the good run. -/
theorem c5_fan_in_completeness_witness :
    "log_analysis" ∈ (stateAfterCoordination oGood [.lg, .kn, .rc]).agents_completed ∧
    route_after_coordination (stateAfterCoordination oGood [.lg, .kn, .rc]) =
      .toDecision :=
  ⟨(c5_fan_in_completeness oGood [.lg, .kn, .rc] (by decide) (by rfl)).1
      "log_analysis" (by decide),
    (c5_fan_in_completeness oGood [.lg, .kn, .rc] (by decide) (by rfl)).2⟩

/-! ## C8 — terminal closure -/

theorem stateAfterTrigger_def (o : Oracles) :
    stateAfterTrigger o =
      applyUpdate (create_incident_state o.incident_id o.raw_alert o.created_at)
        (base_agent_execute .incident_trigger o.now (incident_trigger_process o.parse)
          (create_incident_state o.incident_id o.raw_alert o.created_at)) := rfl

theorem decision_maker_node_next (cfg : Config) (s : IncidentState) :
    (decision_maker_node cfg s).next = some "mitigation" ∨
    (decision_maker_node cfg s).next = some "escalation" := by
  unfold decision_maker_node
  dsimp only
  split_ifs <;> simp_all [PartialUpdate.ofState]

theorem incident_trigger_process_ok_next (po : ParseOutcome) (s : IncidentState)
    (u : PartialUpdate) (h : incident_trigger_process po s = .ok u) :
    u.next = some "parallel_agents" := by
  unfold incident_trigger_process at h
  dsimp only at h
  split at h
  · exact absurd h (by simp)
  · split at h
    · exact absurd h (by simp)
    · split at h
      · exact absurd h (by simp)
      · rw [← Except.ok.inj h]
        rfl

theorem mitigation_process_ok_stage (resp now : String) (s : IncidentState)
    (u : PartialUpdate) (h : mitigation_process resp now s = .ok u) :
    u.stage = some "resolved" ∨ u.stage = some "mitigating" := by
  rcases hs : simulate_mitigation resp with ⟨b, det⟩
  unfold mitigation_process at h
  rw [hs] at h
  cases b
  · dsimp only at h
    rw [← Except.ok.inj h]
    right
    rfl
  · dsimp only at h
    rw [← Except.ok.inj h]
    left
    rfl

theorem escalation_process_ok_stage (now : String) (s : IncidentState)
    (u : PartialUpdate) (h : escalation_process now s = .ok u) :
    u.stage = some "escalated" := by
  unfold escalation_process at h
  rw [← Except.ok.inj h]
  rfl

/-- C8 counterexample: a task-local failure of the trigger (decoded alert
JSON without the expected keys) ends the run at `END` with the terminal flag
still false — the run is left silently unfinished. -/
theorem c8_counterexample :
    (runWorkflow defaultConfig oTrigFail [.lg, .kn, .rc]).workflow_complete = false ∧
    (runWorkflow defaultConfig oTrigFail [.lg, .kn, .rc]).stage = "detected" ∧
    (runWorkflow defaultConfig oTrigFail [.lg, .kn, .rc]).agent_errors =
      [{ agent := "incident_trigger", error := "KeyError: service", timestamp := "t1" }] :=
  ⟨rfl, rfl, rfl⟩

/-- C8 amended: every run whose trigger task does not fail task-locally ends
with the terminal flag true and a non-empty stage label, whichever branch is
taken and however many parallel tasks fail; but a task-local failure of the
trigger itself ends the run immediately with the terminal flag still false
and the stage left at `detected`. -/
theorem c8_terminal_closure (cfg : Config) (o : Oracles) (arrival : List ParTask) :
    ((incident_trigger_process o.parse
        (create_incident_state o.incident_id o.raw_alert o.created_at)).isOk = true →
      (runWorkflow cfg o arrival).workflow_complete = true ∧
      ¬ (runWorkflow cfg o arrival).stage = "") ∧
    ((incident_trigger_process o.parse
        (create_incident_state o.incident_id o.raw_alert o.created_at)).isOk = false →
      (runWorkflow cfg o arrival).workflow_complete = false ∧
      (runWorkflow cfg o arrival).stage = "detected") := by
  rcases ht : incident_trigger_process o.parse
      (create_incident_state o.incident_id o.raw_alert o.created_at) with e | u
  · constructor
    · intro hok
      exact absurd hok (by simp [Except.isOk, Except.toBool])
    · intro _
      have hnext : (stateAfterTrigger o).next = "" := by
        rw [stateAfterTrigger_def]
        unfold base_agent_execute
        rw [ht]
        rfl
      have hr : route_to_parallel_agents (stateAfterTrigger o) = .finished := by
        unfold route_to_parallel_agents
        rw [hnext]
        rfl
      have hfin : runWorkflow cfg o arrival = stateAfterTrigger o := by
        unfold runWorkflow
        dsimp only
        rw [hr]
      rw [hfin]
      constructor
      · rw [stateAfterTrigger_def]
        unfold base_agent_execute
        rw [ht]
        rfl
      · rw [stateAfterTrigger_def]
        unfold base_agent_execute
        rw [ht]
        rfl
  · constructor
    swap
    · intro hnotok
      exact absurd hnotok (by simp [Except.isOk, Except.toBool])
    · intro _
      have hroute1 : route_to_parallel_agents (stateAfterTrigger o) = .parallel := by
        have hnext : (stateAfterTrigger o).next = "parallel_agents" := by
          obtain ⟨l, hE⟩ := base_agent_execute_ok_shape .incident_trigger o.now
            (incident_trigger_process o.parse) _ u ht
          rw [stateAfterTrigger_def]
          rw [hE]
          show (PartialUpdate.next { u with agents_completed := l }).getD _ = _
          rw [incident_trigger_process_ok_next o.parse _ u ht]
          rfl
        unfold route_to_parallel_agents
        rw [hnext]
        rfl
      have hroute2 : route_after_coordination (stateAfterCoordination o arrival) =
          .toDecision := by
        unfold route_after_coordination
        rw [stateAfterCoordination_error o arrival]
        rfl
      rcases decision_maker_node_next cfg (stateAfterCoordination o arrival) with hnx | hnx
      · set s4 := applyUpdate (stateAfterCoordination o arrival)
          (decision_maker_node cfg (stateAfterCoordination o arrival)) with hs4
        have hnext4 : s4.next = "mitigation" := by
          show ((decision_maker_node cfg (stateAfterCoordination o arrival)).next).getD
            (stateAfterCoordination o arrival).next = "mitigation"
          rw [hnx]
          rfl
        have hroute3 : route_after_decision s4 = .toMitigation := by
          unfold route_after_decision
          rw [hnext4]
          rfl
        have hrun : runWorkflow cfg o arrival = finalize_through o .mitigation
            (mitigation_process o.mit_response o.now) s4 := by
          unfold runWorkflow
          dsimp only
          rw [hroute1]
          dsimp only
          rw [hroute2]
          dsimp only
          rw [← hs4, hroute3]
        rw [hrun]
        obtain ⟨hcomp, hstage, -, -, -⟩ := finalize_through_comm_proj o .mitigation
          (mitigation_process o.mit_response o.now) s4
        refine ⟨hcomp, ?_⟩
        rw [hstage]
        rcases hmp : mitigation_process o.mit_response o.now s4 with em | um
        · exact absurd hmp (by simp [mitigation_process])
        · obtain ⟨l2, hE2⟩ := base_agent_execute_ok_shape .mitigation o.now
            (mitigation_process o.mit_response o.now) s4 um hmp
          rw [hE2]
          rcases mitigation_process_ok_stage o.mit_response o.now s4 um hmp with hst | hst
          · have hsv : (applyUpdate s4 { um with agents_completed := l2 }).stage =
                "resolved" := by
              show (um.stage).getD s4.stage = "resolved"
              rw [hst]
              rfl
            rw [hsv]
            simp
          · have hsv : (applyUpdate s4 { um with agents_completed := l2 }).stage =
                "mitigating" := by
              show (um.stage).getD s4.stage = "mitigating"
              rw [hst]
              rfl
            rw [hsv]
            simp
      · set s4 := applyUpdate (stateAfterCoordination o arrival)
          (decision_maker_node cfg (stateAfterCoordination o arrival)) with hs4
        have hnext4 : s4.next = "escalation" := by
          show ((decision_maker_node cfg (stateAfterCoordination o arrival)).next).getD
            (stateAfterCoordination o arrival).next = "escalation"
          rw [hnx]
          rfl
        have hroute3 : route_after_decision s4 = .toEscalation := by
          unfold route_after_decision
          rw [hnext4]
          rfl
        have hrun : runWorkflow cfg o arrival = finalize_through o .escalation
            (escalation_process o.now) s4 := by
          unfold runWorkflow
          dsimp only
          rw [hroute1]
          dsimp only
          rw [hroute2]
          dsimp only
          rw [← hs4, hroute3]
        rw [hrun]
        obtain ⟨hcomp, hstage, -, -, -⟩ := finalize_through_comm_proj o .escalation
          (escalation_process o.now) s4
        refine ⟨hcomp, ?_⟩
        rw [hstage]
        rcases hmp : escalation_process o.now s4 with em | um
        · exact absurd hmp (by simp [escalation_process])
        · obtain ⟨l2, hE2⟩ := base_agent_execute_ok_shape .escalation o.now
            (escalation_process o.now) s4 um hmp
          rw [hE2]
          have hst := escalation_process_ok_stage o.now s4 um hmp
          have hsv : (applyUpdate s4 { um with agents_completed := l2 }).stage =
              "escalated" := by
            show (um.stage).getD s4.stage = "escalated"
            rw [hst]
            rfl
          rw [hsv]
          simp

/-- C8 witness: the healthy run terminates with the flag set and a non-empty
stage. -/
theorem c8_terminal_closure_witness :
    (runWorkflow defaultConfig oGood [.lg, .kn, .rc]).workflow_complete = true ∧
    ¬ (runWorkflow defaultConfig oGood [.lg, .kn, .rc]).stage = "" :=
  (c8_terminal_closure defaultConfig oGood [.lg, .kn, .rc]).1 (by rfl)
